import Mathlib

/-!
# Verification of the credential lifecycle and abuse-control gate

Shallow embedding of the token codec (`src/lib/jwt.ts`), the revocation
registry (LRU blacklists in the same module), the fixed-window rate limiter
and security gate (`src/lib/security.ts`), and the refresh endpoint handler
(`src/app/api/auth/refresh`).

Modelling conventions:
* Time is a single `Nat` clock in milliseconds (the source mixes ms for
  cache TTLs and seconds inside JWTs; one uniform unit is used here).
* A JWT string is modelled by the inductive `Token`: `jwt.sign` is an
  injective constructor carrying the payload, issue time, expiry and the
  signing secret; `jwt.verify` succeeds exactly when the stored secret
  equals the verifying secret and the token is not expired.  Arbitrary
  non-token strings are `Token.raw`.  Equality of `Token` models string
  equality of encoded JWTs.
* `lru-cache` instances are modelled by `LRU`: an association list in
  most-recently-set-first order, each entry carrying its staleness
  deadline (`setTime + ttl`), with wholesale truncation to `maxSize` on
  insertion.  `get`/`has` treat stale entries as absent.
* Date rendering (`toISOString`) is abstracted to decimal rendering of the
  millisecond timestamp; header names and all other strings are literal.
-/

/-! ## Bounded time-expiring LRU store (`lru-cache`) -/

/-- Model of an `lru-cache` instance: entries are `(key, value, staleAt)`
in most-recently-set-first order. -/
structure LRU (K V : Type) where
  entries : List (K × V × Nat)
  maxSize : Nat
  ttl : Nat
deriving DecidableEq

/-- `cache.get(k)` at time `now`: the first entry for `k`, unless stale. -/
def lruGet {K V : Type} [DecidableEq K] (c : LRU K V) (k : K) (now : Nat) : Option V :=
  match c.entries.find? (fun e => e.1 == k) with
  | some e => if now ≤ e.2.2 then some e.2.1 else none
  | none => none

/-- `cache.set(k, v)` at time `now`: insert at the front with a fresh
staleness deadline, dropping any previous entry for `k` and truncating
to capacity. -/
def lruSet {K V : Type} [DecidableEq K] (c : LRU K V) (k : K) (v : V) (now : Nat) : LRU K V :=
  { c with entries := ((k, v, now + c.ttl) :: c.entries.filter (fun e => ¬ e.1 == k)).take c.maxSize }

theorem lruSet_ttl {K V : Type} [DecidableEq K] (c : LRU K V) (k : K) (v : V) (now : Nat) :
    (lruSet c k v now).ttl = c.ttl := rfl

theorem lruSet_maxSize {K V : Type} [DecidableEq K] (c : LRU K V) (k : K) (v : V) (now : Nat) :
    (lruSet c k v now).maxSize = c.maxSize := rfl

/-- Reading back the key just set: present with the set value while within
the TTL, absent once stale. -/
theorem lruGet_set_same {K V : Type} [DecidableEq K] (c : LRU K V) (k : K) (v : V)
    (now now' : Nat) (hmax : 0 < c.maxSize) :
    lruGet (lruSet c k v now) k now' = if now' ≤ now + c.ttl then some v else none := by
  obtain ⟨m, hm⟩ : ∃ m, c.maxSize = m + 1 := ⟨c.maxSize - 1, by omega⟩
  simp [lruGet, lruSet, hm, List.take_succ_cons]

/-- A key that has never been stored is still absent after setting a
different key. -/
theorem lruGet_set_other_absent {K V : Type} [DecidableEq K] (c : LRU K V) (k k' : K)
    (v : V) (now now' : Nat) (hne : ¬ k = k')
    (habs : ∀ e ∈ c.entries, ¬ e.1 = k') :
    lruGet (lruSet c k v now) k' now' = none := by
  have hfind : ((lruSet c k v now).entries.find? (fun e => e.1 == k')) = none := by
    rw [List.find?_eq_none]
    intro e he
    have : e ∈ (k, v, now + c.ttl) :: c.entries.filter (fun e => ¬ e.1 == k) := by
      exact List.mem_of_mem_take he
    rw [List.mem_cons] at this
    rcases this with h1 | hmem
    · subst h1; simpa using hne
    · have : e ∈ c.entries := List.mem_of_mem_filter hmem
      simpa using habs e this
  simp [lruGet, hfind]

/-! ## Token codec and revocation registry (`src/lib/jwt.ts`) -/

/-- `JWTPayload` from `jwt.ts`: claims of an access token. -/
structure JWTPayload where
  userId : String
  email : String
  role : Option String := none
deriving DecidableEq

/-- `RefreshTokenPayload` from `jwt.ts`: claims of a refresh token. -/
structure RefreshTokenPayload where
  userId : String
  tokenId : String
deriving DecidableEq

/-- A token string.  `accessSigned`/`refreshSigned` are outputs of
`jwt.sign` (payload, issued-at, expiry, signing secret); `raw` is any
other string.  Constructor injectivity models injectivity of JWT
encoding. -/
inductive Token where
  | accessSigned (payload : JWTPayload) (iat exp : Nat) (secret : String)
  | refreshSigned (payload : RefreshTokenPayload) (iat exp : Nat) (secret : String)
  | raw (s : String)
deriving DecidableEq

/-- Errors thrown by the verification functions in `jwt.ts`:
`configError` models the plain `Error` thrown when a secret is unset;
the other constructors model `TokenBlacklistedError`,
`RefreshTokenBlacklistedError`, `jwt.TokenExpiredError` and
`jwt.JsonWebTokenError`. -/
inductive VerifyError where
  | configError
  | TokenBlacklistedError
  | RefreshTokenBlacklistedError
  | TokenExpiredError
  | JsonWebTokenError
deriving DecidableEq

/-- The environment variables the core reads.  Durations are in ms
(`JWT_EXPIRES_IN` default `"15m"` = 900000 ms, `JWT_REFRESH_EXPIRES_IN`
default `"7d"` = 604800000 ms). -/
structure Env where
  jwtSecret : Option String := none
  jwtRefreshSecret : Option String := none
  jwtExpiresInMs : Option Nat := none
  jwtRefreshExpiresInMs : Option Nat := none
  allowedOrigins : Option String := none
deriving DecidableEq

def ACCESS_EXPIRES_DEFAULT : Nat := 900000
def REFRESH_EXPIRES_DEFAULT : Nat := 604800000

/-- `jwt.verify(token, secret)` for an access-token verification:
signature check (the stored secret must equal the verifying secret),
then expiry check. -/
def jwtVerifySignedAccess (secret : String) (token : Token) (now : Nat) :
    Except VerifyError JWTPayload :=
  match token with
  | .accessSigned p _iat exp s =>
    if s = secret then
      if exp ≤ now then .error .TokenExpiredError else .ok p
    else .error .JsonWebTokenError
  | _ => .error .JsonWebTokenError

/-- `jwt.verify(token, secret)` for a refresh-token verification. -/
def jwtVerifySignedRefresh (secret : String) (token : Token) (now : Nat) :
    Except VerifyError RefreshTokenPayload :=
  match token with
  | .refreshSigned p _iat exp s =>
    if s = secret then
      if exp ≤ now then .error .TokenExpiredError else .ok p
    else .error .JsonWebTokenError
  | _ => .error .JsonWebTokenError

/-- The two module-level blacklists of `jwt.ts`: access tokens
(max 1000, TTL 24 h) and refresh tokens (max 1000, TTL 7 days). -/
structure JwtState where
  blacklistedTokens : LRU Token Bool
  blacklistedRefreshTokens : LRU Token Bool
deriving DecidableEq

/-- The caches as constructed at module load. -/
def emptyJwtState : JwtState :=
  { blacklistedTokens := { entries := [], maxSize := 1000, ttl := 86400000 }
    blacklistedRefreshTokens := { entries := [], maxSize := 1000, ttl := 604800000 } }

/-- `generateAccessToken` from `jwt.ts`. -/
def generateAccessToken (env : Env) (payload : JWTPayload) (now : Nat) :
    Except VerifyError Token :=
  match env.jwtSecret with
  | none => .error .configError
  | some secret =>
    .ok (.accessSigned payload now (now + env.jwtExpiresInMs.getD ACCESS_EXPIRES_DEFAULT) secret)

/-- `generateRefreshToken` from `jwt.ts`. -/
def generateRefreshToken (env : Env) (payload : RefreshTokenPayload) (now : Nat) :
    Except VerifyError Token :=
  match env.jwtRefreshSecret with
  | none => .error .configError
  | some secret =>
    .ok (.refreshSigned payload now (now + env.jwtRefreshExpiresInMs.getD REFRESH_EXPIRES_DEFAULT) secret)

/-- `isTokenBlacklisted` (`blacklistedTokens.has(token)`). -/
def isTokenBlacklisted (st : JwtState) (token : Token) (now : Nat) : Bool :=
  (lruGet st.blacklistedTokens token now).isSome

/-- `isRefreshTokenBlacklisted` (`blacklistedRefreshTokens.has(token)`). -/
def isRefreshTokenBlacklisted (st : JwtState) (token : Token) (now : Nat) : Bool :=
  (lruGet st.blacklistedRefreshTokens token now).isSome

/-- `verifyAccessToken` from `jwt.ts`: secret presence, then blacklist
membership, then `jwt.verify`. -/
def verifyAccessToken (env : Env) (st : JwtState) (token : Token) (now : Nat) :
    Except VerifyError JWTPayload :=
  match env.jwtSecret with
  | none => .error .configError
  | some secret =>
    if isTokenBlacklisted st token now then .error .TokenBlacklistedError
    else jwtVerifySignedAccess secret token now

/-- `verifyRefreshToken` from `jwt.ts`. -/
def verifyRefreshToken (env : Env) (st : JwtState) (token : Token) (now : Nat) :
    Except VerifyError RefreshTokenPayload :=
  match env.jwtRefreshSecret with
  | none => .error .configError
  | some secret =>
    if isRefreshTokenBlacklisted st token now then .error .RefreshTokenBlacklistedError
    else jwtVerifySignedRefresh secret token now

/-- `blacklistToken` from `jwt.ts`: `blacklistedTokens.set(token, true)`. -/
def blacklistToken (st : JwtState) (token : Token) (now : Nat) : JwtState :=
  { st with blacklistedTokens := lruSet st.blacklistedTokens token true now }

/-- `blacklistRefreshToken` from `jwt.ts`. -/
def blacklistRefreshToken (st : JwtState) (token : Token) (now : Nat) : JwtState :=
  { st with blacklistedRefreshTokens := lruSet st.blacklistedRefreshTokens token true now }

/-- `generateTokenPair` from `jwt.ts`.  The random `tokenId` drawn by
`Math.random` is passed in as a parameter. -/
def generateTokenPair (env : Env) (userId email tokenId : String) (now : Nat) :
    Except VerifyError (Token × Token) :=
  match generateAccessToken env { userId := userId, email := email } now with
  | .error e => .error e
  | .ok accessToken =>
    match generateRefreshToken env { userId := userId, tokenId := tokenId } now with
    | .error e => .error e
    | .ok refreshToken => .ok (accessToken, refreshToken)

/-! ## Requests and the security module (`src/lib/security.ts`) -/

/-- An inbound request: header list and pathname.  `headers.get(name)`
is modelled by exact lookup on the (already lower-cased) names used in
the source. -/
structure Request where
  headers : List (String × String)
  path : String
deriving DecidableEq

/-- `request.headers.get(name)`. -/
def headerGet (req : Request) (name : String) : Option String :=
  (req.headers.find? (fun h => h.1 == name)).map (fun h => h.2)

/-- A header value as tested by JavaScript truthiness: an absent header
and an empty-string header are both falsy. -/
def headerTruthy (req : Request) (name : String) : Option String :=
  match headerGet req name with
  | some v => if v = "" then none else some v
  | none => none

/-- `getClientIP` from `security.ts`: first truthy of
`x-forwarded-for` (first comma-separated hop, trimmed), `x-real-ip`,
`cf-connecting-ip`, else `"unknown"`. -/
def getClientIP (req : Request) : String :=
  match headerTruthy req "x-forwarded-for" with
  | some forwarded => ((forwarded.splitOn ",").headD "").trim
  | none =>
    match headerTruthy req "x-real-ip" with
    | some realIP => realIP
    | none =>
      match headerTruthy req "cf-connecting-ip" with
      | some cf => cf
      | none => "unknown"

/-- The keys of `RATE_LIMITS`. -/
inductive RateLimitKind where
  | auth
  | api
  | strict
deriving DecidableEq

def rateLimitKindName : RateLimitKind → String
  | .auth => "auth"
  | .api => "api"
  | .strict => "strict"

structure LimitConfig where
  windowMs : Nat
  max : Nat
deriving DecidableEq

/-- `RATE_LIMITS` from `security.ts`. -/
def RATE_LIMITS : RateLimitKind → LimitConfig
  | .auth => { windowMs := 900000, max := 5 }
  | .api => { windowMs := 900000, max := 100 }
  | .strict => { windowMs := 900000, max := 10 }

/-- One stored rate window: `{ count, resetTime }`. -/
structure RateWindow where
  count : Nat
  resetTime : Nat
deriving DecidableEq

/-- The module-level `rateLimitCache` as constructed (max 10000,
TTL 15 minutes). -/
def emptyRateLimitCache : LRU String RateWindow :=
  { entries := [], maxSize := 10000, ttl := 900000 }

/-- The cache key `` `${type}:${ip}` ``. -/
def rlKey (kind : RateLimitKind) (req : Request) : String :=
  rateLimitKindName kind ++ ":" ++ getClientIP req

/-- The result record returned by `rateLimit`. -/
structure RateLimitResult where
  success : Bool
  message : Option String := none
  headers : Option (List (String × String)) := none
deriving DecidableEq

/-- Headers attached to a denied rate-limit result. -/
def rateLimitDenyHeaders (limit : LimitConfig) (w : RateWindow) (now : Nat) :
    List (String × String) :=
  [("X-RateLimit-Limit", toString limit.max),
   ("X-RateLimit-Remaining", "0"),
   ("X-RateLimit-Reset", toString w.resetTime),
   ("Retry-After", toString ((w.resetTime - now + 999) / 1000))]

/-- Headers attached to an allowed (incrementing) rate-limit result;
`w` is the window after the increment. -/
def rateLimitAllowHeaders (limit : LimitConfig) (w : RateWindow) :
    List (String × String) :=
  [("X-RateLimit-Limit", toString limit.max),
   ("X-RateLimit-Remaining", toString (limit.max - w.count)),
   ("X-RateLimit-Reset", toString w.resetTime)]

/-- `rateLimit` from `security.ts`, returning the result together with
the updated cache. -/
def rateLimit (req : Request) (kind : RateLimitKind) (cache : LRU String RateWindow)
    (now : Nat) : RateLimitResult × LRU String RateWindow :=
  let key := rlKey kind req
  let limit := RATE_LIMITS kind
  match lruGet cache key now with
  | none =>
    ({ success := true }, lruSet cache key { count := 1, resetTime := now + limit.windowMs } now)
  | some current =>
    if current.resetTime < now then
      ({ success := true }, lruSet cache key { count := 1, resetTime := now + limit.windowMs } now)
    else if limit.max ≤ current.count then
      ({ success := false, message := some "Too many requests",
         headers := some (rateLimitDenyHeaders limit current now) }, cache)
    else
      let updated : RateWindow := { count := current.count + 1, resetTime := current.resetTime }
      ({ success := true, headers := some (rateLimitAllowHeaders limit updated) },
       lruSet cache key updated now)

/-- `ALLOWED_ORIGINS` parsing: split on commas when set, else the
localhost default. -/
def allowedOriginsList (env : Env) : List String :=
  match env.allowedOrigins with
  | some s => s.splitOn ","
  | none => ["http://localhost:3000"]

/-- `validateOrigin` from `security.ts`: a falsy (absent or empty)
Origin header passes; otherwise the origin must be in the allow-list. -/
def validateOrigin (env : Env) (req : Request) : Bool :=
  match headerTruthy req "origin" with
  | none => true
  | some origin => (allowedOriginsList env).contains origin

/-- A response as far as the gate is concerned: status code and the
`error` field of the JSON body.  `NextResponse.next()` is status 200
with no error. -/
structure Response where
  status : Nat
  error : Option String := none
deriving DecidableEq

/-- `securityMiddleware` from `security.ts`: security headers are
attached unconditionally (not tracked here), then the origin check;
its rate-limiting block is commented out in the source. -/
def securityMiddleware (env : Env) (req : Request) : Response :=
  if validateOrigin env req then { status := 200 }
  else { status := 403, error := some "Invalid origin" }

/-- The auth-endpoint classifier inside `authMiddleware`:
`url.includes("/auth/") && (login|signup|logout|refresh)`. -/
def strIncludes (s pat : String) : Bool :=
  1 < (s.splitOn pat).length

def isAuthEndpoint (url : String) : Bool :=
  strIncludes url "/auth/" &&
    (strIncludes url "/login" || strIncludes url "/signup" ||
     strIncludes url "/logout" || strIncludes url "/refresh")

/-- The bearer-header test at the top of `authMiddleware`:
`!authHeader || !authHeader.startsWith("Bearer ")` (an empty string is
falsy and also fails `startsWith`). -/
def bearerHeaderOk (req : Request) : Bool :=
  match headerGet req "authorization" with
  | some a => a.startsWith "Bearer "
  | none => false

/-- `authMiddleware` from `security.ts`: bearer-header check first,
then rate limiting (strict `auth` class for auth endpoints, `api`
otherwise). -/
def authMiddleware (req : Request) (cache : LRU String RateWindow) (now : Nat) :
    Response × LRU String RateWindow :=
  if !bearerHeaderOk req then
    ({ status := 401, error := some "Authentication required" }, cache)
  else
    let kind := if isAuthEndpoint req.path then RateLimitKind.auth else RateLimitKind.api
    let result := rateLimit req kind cache now
    if result.1.success then
      ({ status := 200 }, result.2)
    else
      let msg := if isAuthEndpoint req.path then "Too many authentication attempts"
                 else "Too many requests"
      ({ status := 429, error := some msg }, result.2)

/-! ## The refresh endpoint (`src/app/api/auth/refresh`, `GETHandler`) -/

/-- Outcome of the refresh endpoint: a failure response or the fresh
token pair (the 200 body `{ accessToken, refreshToken }`). -/
inductive RefreshOutcome where
  | failure (status : Nat) (error : String)
  | issued (accessToken refreshToken : Token)
deriving DecidableEq

/-- `GETHandler` of the refresh route.  `xRefreshToken` is the value of
the `x-refresh-token` header (`none` models an absent or falsy header);
`users` is the external `UserService.findUserById` collaborator mapping
a user id to its stored email; `tokenId` is the random correlation id
drawn inside `generateTokenPair`.  Returns the outcome together with
the updated jwt blacklists and rate-limit cache. -/
def refreshHandler (env : Env) (users : String → Option String) (req : Request)
    (xRefreshToken : Option Token) (st : JwtState) (rl : LRU String RateWindow)
    (tokenId : String) (now : Nat) :
    RefreshOutcome × JwtState × LRU String RateWindow :=
  let sec := securityMiddleware env req
  if sec.status ≠ 200 then
    (.failure sec.status (sec.error.getD ""), st, rl)
  else
    let rlStep := rateLimit req .auth rl now
    if !rlStep.1.success then
      (.failure 429 "Too many refresh attempts. Please try again later.", st, rlStep.2)
    else
      match xRefreshToken with
      | none => (.failure 401 "Refresh token required", st, rlStep.2)
      | some refreshToken =>
        match verifyRefreshToken env st refreshToken now with
        | .error .RefreshTokenBlacklistedError =>
          (.failure 401 "Refresh token has been revoked. Please login again.", st, rlStep.2)
        | .error .TokenExpiredError =>
          (.failure 401 "Refresh token has expired. Please login again.", st, rlStep.2)
        | .error .JsonWebTokenError =>
          (.failure 401 "Invalid refresh token", st, rlStep.2)
        | .error _ =>
          (.failure 500 "Internal server error", st, rlStep.2)
        | .ok user =>
          match users user.userId with
          | none => (.failure 401 "Invalid refresh token", st, rlStep.2)
          | some email =>
            let st' := blacklistRefreshToken st refreshToken now
            match generateTokenPair env user.userId email tokenId now with
            | .error _ => (.failure 500 "Internal server error", st', rlStep.2)
            | .ok pair => (.issued pair.1 pair.2, st', rlStep.2)

deriving instance DecidableEq for Except

/-! ## Path lemmas for the rate limiter -/

/-- Absent-or-expired window: allow and install a fresh window. -/
theorem rateLimit_fresh (req : Request) (kind : RateLimitKind)
    (cache : LRU String RateWindow) (now : Nat)
    (h : lruGet cache (rlKey kind req) now = none ∨
         ∃ w, lruGet cache (rlKey kind req) now = some w ∧ w.resetTime < now) :
    rateLimit req kind cache now =
      ({ success := true },
       lruSet cache (rlKey kind req)
         { count := 1, resetTime := now + (RATE_LIMITS kind).windowMs } now) := by
  rcases h with h | ⟨w, hw, hlt⟩
  · simp [rateLimit, h]
  · simp [rateLimit, hw, hlt]

/-- Live window at capacity: deny, cache untouched. -/
theorem rateLimit_deny (req : Request) (kind : RateLimitKind)
    (cache : LRU String RateWindow) (now : Nat) (w : RateWindow)
    (hw : lruGet cache (rlKey kind req) now = some w)
    (hlive : ¬ w.resetTime < now)
    (hfull : (RATE_LIMITS kind).max ≤ w.count) :
    rateLimit req kind cache now =
      ({ success := false, message := some "Too many requests",
         headers := some (rateLimitDenyHeaders (RATE_LIMITS kind) w now) }, cache) := by
  simp [rateLimit, hw, hlive, hfull]

/-- Live window below capacity: allow and increment. -/
theorem rateLimit_incr (req : Request) (kind : RateLimitKind)
    (cache : LRU String RateWindow) (now : Nat) (w : RateWindow)
    (hw : lruGet cache (rlKey kind req) now = some w)
    (hlive : ¬ w.resetTime < now)
    (hroom : w.count < (RATE_LIMITS kind).max) :
    rateLimit req kind cache now =
      ({ success := true,
         headers := some (rateLimitAllowHeaders (RATE_LIMITS kind)
           { count := w.count + 1, resetTime := w.resetTime }) },
       lruSet cache (rlKey kind req) { count := w.count + 1, resetTime := w.resetTime } now) := by
  have hnf : ¬ (RATE_LIMITS kind).max ≤ w.count := by omega
  simp [rateLimit, hw, hlive, hnf]

/-! ## Claims -/

/-- Claim C1: for every token string `t`, after `blacklistToken t` a
subsequent `verifyAccessToken t` (with the access secret configured and
the blacklist entry within its TTL) fails with `TokenBlacklistedError`,
regardless of `t`'s signature validity or expiry. -/
theorem revoke_then_verify_fails_revoked
    (env : Env) (st : JwtState) (t : Token) (s : String) (now now' : Nat)
    (hsec : env.jwtSecret = some s)
    (hmax : 0 < st.blacklistedTokens.maxSize)
    (hts : now' ≤ now + st.blacklistedTokens.ttl) :
    verifyAccessToken env (blacklistToken st t now) t now' =
      .error .TokenBlacklistedError := by
  simp [verifyAccessToken, hsec, blacklistToken, isTokenBlacklisted,
        lruGet_set_same _ _ _ _ _ hmax, hts]

/-- Claim C1 witness: a validly signed, unexpired token revoked at time 0
and verified at time 5. -/
theorem revoke_then_verify_fails_revoked_witness :
    ({ jwtSecret := some "s" } : Env).jwtSecret = some "s" ∧
    0 < emptyJwtState.blacklistedTokens.maxSize ∧
    5 ≤ 0 + emptyJwtState.blacklistedTokens.ttl ∧
    verifyAccessToken { jwtSecret := some "s" }
        (blacklistToken emptyJwtState
          (.accessSigned { userId := "u", email := "e" } 0 900000 "s") 0)
        (.accessSigned { userId := "u", email := "e" } 0 900000 "s") 5 =
      .error .TokenBlacklistedError :=
  ⟨rfl, by decide, by decide,
   revoke_then_verify_fails_revoked _ emptyJwtState _ "s" 0 5 rfl (by decide) (by decide)⟩

/-- Claim C2: verifying a freshly issued access token before expiry,
when it is not blacklisted, returns the claims `{userId, email}` that
were signed. -/
theorem issue_then_verify_roundtrip
    (env : Env) (st : JwtState) (u e s : String) (tok : Token) (now now' : Nat)
    (hsec : env.jwtSecret = some s)
    (hgen : generateAccessToken env { userId := u, email := e } now = .ok tok)
    (hbl : isTokenBlacklisted st tok now' = false)
    (hexp : now' < now + env.jwtExpiresInMs.getD ACCESS_EXPIRES_DEFAULT) :
    verifyAccessToken env st tok now' = .ok { userId := u, email := e } := by
  simp only [generateAccessToken, hsec, Except.ok.injEq] at hgen
  subst hgen
  simp [verifyAccessToken, hsec, hbl, jwtVerifySignedAccess]
  omega

/-- Claim C2 witness. -/
theorem issue_then_verify_roundtrip_witness :
    ({ jwtSecret := some "s" } : Env).jwtSecret = some "s" ∧
    generateAccessToken { jwtSecret := some "s" } { userId := "u", email := "e" } 10 =
      .ok (.accessSigned { userId := "u", email := "e" } 10 900010 "s") ∧
    isTokenBlacklisted emptyJwtState
        (.accessSigned { userId := "u", email := "e" } 10 900010 "s") 20 = false ∧
    20 < 10 + (({ jwtSecret := some "s" } : Env).jwtExpiresInMs.getD ACCESS_EXPIRES_DEFAULT) ∧
    verifyAccessToken { jwtSecret := some "s" } emptyJwtState
        (.accessSigned { userId := "u", email := "e" } 10 900010 "s") 20 =
      .ok { userId := "u", email := "e" } :=
  ⟨rfl, by decide, by decide, by decide,
   issue_then_verify_roundtrip _ emptyJwtState "u" "e" "s" _ 10 20 rfl (by decide)
     (by decide) (by decide)⟩

/-- Claim C4 counterexample: a structurally invalid token string that is
in the revocation set is rejected with the Revoked kind
(`TokenBlacklistedError`), not the Malformed kind (`JsonWebTokenError`),
because the source consults the blacklist before `jwt.verify`. -/
theorem verify_order_counterexample :
    verifyAccessToken { jwtSecret := some "s" }
        (blacklistToken emptyJwtState (.raw "junk") 0) (.raw "junk") 0 =
      .error .TokenBlacklistedError ∧
    verifyAccessToken { jwtSecret := some "s" }
        (blacklistToken emptyJwtState (.raw "junk") 0) (.raw "junk") 0 ≠
      .error .JsonWebTokenError := by
  constructor
  · decide
  · decide

/-- Claim C4 amended: both verifiers consult the matching revocation set
first and only then parse and validate signature and expiry: a revoked
token yields the Revoked kind even when malformed or expired, and only a
non-revoked token reaches `jwt.verify`, whose outcome (Malformed or
Expired or the claims) is the verifier's outcome. -/
theorem verify_checks_blacklist_before_signature
    (env : Env) (st : JwtState) (token : Token) (now : Nat) (sA sR : String)
    (hA : env.jwtSecret = some sA) (hR : env.jwtRefreshSecret = some sR) :
    (isTokenBlacklisted st token now = true →
      verifyAccessToken env st token now = .error .TokenBlacklistedError) ∧
    (isTokenBlacklisted st token now = false →
      verifyAccessToken env st token now = jwtVerifySignedAccess sA token now) ∧
    (isRefreshTokenBlacklisted st token now = true →
      verifyRefreshToken env st token now = .error .RefreshTokenBlacklistedError) ∧
    (isRefreshTokenBlacklisted st token now = false →
      verifyRefreshToken env st token now = jwtVerifySignedRefresh sR token now) := by
  refine ⟨fun h => ?_, fun h => ?_, fun h => ?_, fun h => ?_⟩ <;>
    simp [verifyAccessToken, verifyRefreshToken, hA, hR, h]

/-- Claim C4 amended witness: a malformed blacklisted token string. -/
theorem verify_checks_blacklist_before_signature_witness :
    ({ jwtSecret := some "s", jwtRefreshSecret := some "r" } : Env).jwtSecret = some "s" ∧
    isTokenBlacklisted (blacklistToken emptyJwtState (.raw "junk") 0) (.raw "junk") 0 = true ∧
    verifyAccessToken { jwtSecret := some "s", jwtRefreshSecret := some "r" }
        (blacklistToken emptyJwtState (.raw "junk") 0) (.raw "junk") 0 =
      .error .TokenBlacklistedError :=
  ⟨rfl, by decide,
   (verify_checks_blacklist_before_signature
      { jwtSecret := some "s", jwtRefreshSecret := some "r" }
      (blacklistToken emptyJwtState (.raw "junk") 0) (.raw "junk") 0 "s" "r"
      rfl rfl).1 (by decide)⟩

/-- Claim C9: a request whose Origin header is present but not in the
allow-list is rejected by `securityMiddleware` with 403 "Invalid
origin"; a request with no Origin header passes the origin check for
every allow-list. -/
theorem origin_check_behaviour (env : Env) (req : Request) :
    (∀ v, headerTruthy req "origin" = some v →
      (allowedOriginsList env).contains v = false →
      securityMiddleware env req = { status := 403, error := some "Invalid origin" }) ∧
    (headerTruthy req "origin" = none →
      securityMiddleware env req = { status := 200 }) := by
  constructor
  · intro v hv hc
    simp [securityMiddleware, validateOrigin, hv, hc]
    simpa using hc
  · intro h
    simp [securityMiddleware, validateOrigin, h]

/-- Claim C9 witness: `Origin: https://evil.example` against the default
allow-list is rejected; no Origin header passes. -/
theorem origin_check_behaviour_witness :
    headerTruthy { headers := [("origin", "https://evil.example")], path := "/x" }
      "origin" = some "https://evil.example" ∧
    (allowedOriginsList {}).contains "https://evil.example" = false ∧
    securityMiddleware {} { headers := [("origin", "https://evil.example")], path := "/x" } =
      { status := 403, error := some "Invalid origin" } ∧
    headerTruthy { headers := [], path := "/x" } "origin" = none ∧
    securityMiddleware {} { headers := [], path := "/x" } = { status := 200 } :=
  ⟨by decide, by decide,
   (origin_check_behaviour {} _).1 "https://evil.example" (by decide) (by decide),
   by decide,
   (origin_check_behaviour {} _).2 (by decide)⟩

/-- Claim C6: within a window's epoch (live entry, current time not past
`resetTime`), a denied call (count at capacity) leaves the stored window
untouched and reports remaining 0, and an allowed call increments the
count by exactly one with `resetTime` unchanged. -/
theorem rate_window_step_invariant
    (req : Request) (kind : RateLimitKind) (cache : LRU String RateWindow)
    (now : Nat) (w : RateWindow)
    (hmax : 0 < cache.maxSize)
    (hw : lruGet cache (rlKey kind req) now = some w)
    (hlive : ¬ w.resetTime < now) :
    ((RATE_LIMITS kind).max ≤ w.count →
      (rateLimit req kind cache now).1.success = false ∧
      (rateLimit req kind cache now).2 = cache ∧
      (rateLimit req kind cache now).1.headers =
        some (rateLimitDenyHeaders (RATE_LIMITS kind) w now) ∧
      ("X-RateLimit-Remaining", "0") ∈ rateLimitDenyHeaders (RATE_LIMITS kind) w now) ∧
    (w.count < (RATE_LIMITS kind).max →
      (rateLimit req kind cache now).1.success = true ∧
      lruGet (rateLimit req kind cache now).2 (rlKey kind req) now =
        some { count := w.count + 1, resetTime := w.resetTime }) := by
  constructor
  · intro hfull
    rw [rateLimit_deny req kind cache now w hw hlive hfull]
    simp [rateLimitDenyHeaders]
  · intro hroom
    rw [rateLimit_incr req kind cache now w hw hlive hroom]
    refine ⟨rfl, ?_⟩
    rw [lruGet_set_same _ _ _ _ _ hmax]
    simp

/-- Claim C6 witness: a live window with count 5 under the `auth` class
is denied unchanged; a live window with count 3 is incremented to 4. -/
theorem rate_window_step_invariant_witness :
    0 < (emptyRateLimitCache.maxSize) ∧
    lruGet { entries := [("auth:unknown", ({ count := 5, resetTime := 1000 } : RateWindow), 2000)],
             maxSize := 10000, ttl := 900000 } "auth:unknown" 500 =
      some { count := 5, resetTime := 1000 } ∧
    (RATE_LIMITS .auth).max ≤ 5 ∧
    (rateLimit { headers := [], path := "/x" } .auth
        { entries := [("auth:unknown", { count := 5, resetTime := 1000 }, 2000)],
          maxSize := 10000, ttl := 900000 } 500).1.success = false ∧
    (rateLimit { headers := [], path := "/x" } .auth
        { entries := [("auth:unknown", { count := 5, resetTime := 1000 }, 2000)],
          maxSize := 10000, ttl := 900000 } 500).2 =
      { entries := [("auth:unknown", { count := 5, resetTime := 1000 }, 2000)],
        maxSize := 10000, ttl := 900000 } :=
  ⟨by decide, by decide, by decide,
   ((rate_window_step_invariant { headers := [], path := "/x" } .auth
       { entries := [("auth:unknown", { count := 5, resetTime := 1000 }, 2000)],
         maxSize := 10000, ttl := 900000 } 500 { count := 5, resetTime := 1000 }
       (by decide) (by decide) (by decide)).1 (by decide)).1,
   ((rate_window_step_invariant { headers := [], path := "/x" } .auth
       { entries := [("auth:unknown", { count := 5, resetTime := 1000 }, 2000)],
         maxSize := 10000, ttl := 900000 } 500 { count := 5, resetTime := 1000 }
       (by decide) (by decide) (by decide)).1 (by decide)).2.1⟩

/-- Claim C7 counterexample: a request on a protected route with no
Authorization header and an already-exhausted rate window receives 401
(the bearer check fires first), not the 429 the claim requires. -/
theorem gate_order_counterexample :
    rlKey .api { headers := [("x-real-ip", "9.9.9.9")], path := "/api/bookings" } =
      "api:9.9.9.9" ∧
    lruGet { entries := [("api:9.9.9.9", ({ count := 100, resetTime := 1000 } : RateWindow), 2000)],
             maxSize := 10000, ttl := 900000 } "api:9.9.9.9" 500 =
      some { count := 100, resetTime := 1000 } ∧
    (RATE_LIMITS .api).max ≤ 100 ∧
    (authMiddleware { headers := [("x-real-ip", "9.9.9.9")], path := "/api/bookings" }
        { entries := [("api:9.9.9.9", { count := 100, resetTime := 1000 }, 2000)],
          maxSize := 10000, ttl := 900000 } 500).1.status = 401 ∧
    ¬ (authMiddleware { headers := [("x-real-ip", "9.9.9.9")], path := "/api/bookings" }
        { entries := [("api:9.9.9.9", { count := 100, resetTime := 1000 }, 2000)],
          maxSize := 10000, ttl := 900000 } 500).1.status = 429 := by
  refine ⟨by decide, by decide, by decide, by decide, by decide⟩

/-- Claim C7 amended: in `authMiddleware` the bearer-token presence
check precedes rate limiting: a request without a `Bearer` Authorization
header is answered 401 "Authentication required" with the rate-limit
cache untouched (no rate-limit step is consumed), and only a request
with a bearer-shaped header whose window is exhausted receives 429. -/
theorem gate_bearer_check_precedes_rate_limit
    (req : Request) (cache : LRU String RateWindow) (now : Nat) :
    (bearerHeaderOk req = false →
      authMiddleware req cache now =
        ({ status := 401, error := some "Authentication required" }, cache)) ∧
    (bearerHeaderOk req = true →
      (rateLimit req (if isAuthEndpoint req.path then .auth else .api) cache now).1.success
          = false →
      (authMiddleware req cache now).1.status = 429) := by
  constructor
  · intro h
    simp [authMiddleware, h]
  · intro h hfail
    simp only [authMiddleware, h, Bool.not_true, Bool.false_eq_true, if_false]
    cases hA : isAuthEndpoint req.path <;>
      simp only [hA, if_true, if_false, Bool.false_eq_true] at hfail ⊢ <;>
      simp [hfail]

/-- Claim C7 amended witness. -/
theorem gate_bearer_check_precedes_rate_limit_witness :
    bearerHeaderOk { headers := [("x-real-ip", "9.9.9.9")], path := "/api/bookings" }
      = false ∧
    authMiddleware { headers := [("x-real-ip", "9.9.9.9")], path := "/api/bookings" }
        { entries := [("api:9.9.9.9", { count := 100, resetTime := 1000 }, 2000)],
          maxSize := 10000, ttl := 900000 } 500 =
      ({ status := 401, error := some "Authentication required" },
       { entries := [("api:9.9.9.9", { count := 100, resetTime := 1000 }, 2000)],
         maxSize := 10000, ttl := 900000 }) :=
  ⟨by decide,
   (gate_bearer_check_precedes_rate_limit
      { headers := [("x-real-ip", "9.9.9.9")], path := "/api/bookings" }
      { entries := [("api:9.9.9.9", { count := 100, resetTime := 1000 }, 2000)],
        maxSize := 10000, ttl := 900000 } 500).1 (by decide)⟩

/-- Claim C8 counterexample: the allowed result that installs a fresh
window (first request of an epoch) carries no rate-limit headers at
all. -/
theorem rate_limit_headers_counterexample :
    (rateLimit { headers := [("x-real-ip", "9.9.9.9")], path := "/api/travellers" } .api
        emptyRateLimitCache 0).1.success = true ∧
    (rateLimit { headers := [("x-real-ip", "9.9.9.9")], path := "/api/travellers" } .api
        emptyRateLimitCache 0).1.headers = none := by
  refine ⟨by decide, by decide⟩

/-- Claim C8 amended: a denied result reports Limit, Remaining 0, Reset
and Retry-After; an allowed result that increments an existing live
window reports Limit, Remaining and Reset; the allowed result that
installs a fresh window reports no rate-limit headers. -/
theorem rate_limit_headers_by_path
    (req : Request) (kind : RateLimitKind) (cache : LRU String RateWindow) (now : Nat) :
    ((lruGet cache (rlKey kind req) now = none ∨
        (∃ w, lruGet cache (rlKey kind req) now = some w ∧ w.resetTime < now)) →
      (rateLimit req kind cache now).1 = { success := true }) ∧
    (∀ w, lruGet cache (rlKey kind req) now = some w → ¬ w.resetTime < now →
      (RATE_LIMITS kind).max ≤ w.count →
      (rateLimit req kind cache now).1.headers =
        some [("X-RateLimit-Limit", toString (RATE_LIMITS kind).max),
              ("X-RateLimit-Remaining", "0"),
              ("X-RateLimit-Reset", toString w.resetTime),
              ("Retry-After", toString ((w.resetTime - now + 999) / 1000))]) ∧
    (∀ w, lruGet cache (rlKey kind req) now = some w → ¬ w.resetTime < now →
      w.count < (RATE_LIMITS kind).max →
      (rateLimit req kind cache now).1.headers =
        some [("X-RateLimit-Limit", toString (RATE_LIMITS kind).max),
              ("X-RateLimit-Remaining", toString ((RATE_LIMITS kind).max - (w.count + 1))),
              ("X-RateLimit-Reset", toString w.resetTime)]) := by
  refine ⟨fun h => ?_, fun w hw hlive hfull => ?_, fun w hw hlive hroom => ?_⟩
  · rw [rateLimit_fresh req kind cache now h]
  · rw [rateLimit_deny req kind cache now w hw hlive hfull]
    simp [rateLimitDenyHeaders]
  · rw [rateLimit_incr req kind cache now w hw hlive hroom]
    simp [rateLimitAllowHeaders]

/-- Claim C8 amended witness: the fresh-window case at a concrete
request. -/
theorem rate_limit_headers_by_path_witness :
    lruGet emptyRateLimitCache
      (rlKey .api { headers := [("x-real-ip", "9.9.9.9")], path := "/api/travellers" }) 0 =
      none ∧
    (rateLimit { headers := [("x-real-ip", "9.9.9.9")], path := "/api/travellers" } .api
        emptyRateLimitCache 0).1 = { success := true } :=
  ⟨by decide,
   (rate_limit_headers_by_path { headers := [("x-real-ip", "9.9.9.9")], path := "/api/travellers" }
      .api emptyRateLimitCache 0).1 (Or.inl (by decide))⟩

/-- Sequential calls to `rateLimit` at the given times, threading the
cache; returns the list of `success` flags and the final cache. -/
def rateLimitRun (req : Request) (kind : RateLimitKind) (cache : LRU String RateWindow) :
    List Nat → List Bool × LRU String RateWindow
  | [] => ([], cache)
  | t :: ts =>
    ((rateLimit req kind cache t).1.success ::
       (rateLimitRun req kind (rateLimit req kind cache t).2 ts).1,
     (rateLimitRun req kind (rateLimit req kind cache t).2 ts).2)

/-- Claim C5: for a limit class with `max = 5` (and the 15-minute
window), starting from an absent or expired window, the first five calls
within the window are allowed, the sixth call at or before `resetAt` is
denied, and a seventh call past `resetAt` is allowed and installs a
fresh window with count 1. -/
theorem rate_limit_five_allow_then_deny_then_reset
    (req : Request) (kind : RateLimitKind) (cache : LRU String RateWindow)
    (t1 t2 t3 t4 t5 t6 t7 : Nat)
    (hkmax : (RATE_LIMITS kind).max = 5)
    (hkwin : (RATE_LIMITS kind).windowMs = 900000)
    (hmax : 0 < cache.maxSize)
    (httl : cache.ttl = 900000)
    (hstart : lruGet cache (rlKey kind req) t1 = none ∨
        ∃ w, lruGet cache (rlKey kind req) t1 = some w ∧ w.resetTime < t1)
    (h12 : t1 ≤ t2) (h23 : t2 ≤ t3) (h34 : t3 ≤ t4) (h45 : t4 ≤ t5) (h56 : t5 ≤ t6)
    (h6 : t6 ≤ t1 + 900000) (h7 : t1 + 900000 < t7) :
    (rateLimitRun req kind cache [t1, t2, t3, t4, t5, t6, t7]).1 =
      [true, true, true, true, true, false, true] ∧
    lruGet (rateLimitRun req kind cache [t1, t2, t3, t4, t5, t6, t7]).2 (rlKey kind req) t7 =
      some { count := 1, resetTime := t7 + 900000 } := by
  set key := rlKey kind req with hkey
  set c1 := lruSet cache key { count := 1, resetTime := t1 + 900000 } t1 with hc1
  set c2 := lruSet c1 key { count := 2, resetTime := t1 + 900000 } t2 with hc2
  set c3 := lruSet c2 key { count := 3, resetTime := t1 + 900000 } t3 with hc3
  set c4 := lruSet c3 key { count := 4, resetTime := t1 + 900000 } t4 with hc4
  set c5 := lruSet c4 key { count := 5, resetTime := t1 + 900000 } t5 with hc5
  have hmax1 : 0 < c1.maxSize := by rw [hc1, lruSet_maxSize]; exact hmax
  have hmax2 : 0 < c2.maxSize := by rw [hc2, lruSet_maxSize]; exact hmax1
  have hmax3 : 0 < c3.maxSize := by rw [hc3, lruSet_maxSize]; exact hmax2
  have hmax4 : 0 < c4.maxSize := by rw [hc4, lruSet_maxSize]; exact hmax3
  have hmax5 : 0 < c5.maxSize := by rw [hc5, lruSet_maxSize]; exact hmax4
  have httl1 : c1.ttl = 900000 := by rw [hc1, lruSet_ttl, httl]
  have httl2 : c2.ttl = 900000 := by rw [hc2, lruSet_ttl, httl1]
  have httl3 : c3.ttl = 900000 := by rw [hc3, lruSet_ttl, httl2]
  have httl4 : c4.ttl = 900000 := by rw [hc4, lruSet_ttl, httl3]
  have httl5 : c5.ttl = 900000 := by rw [hc5, lruSet_ttl, httl4]
  have e1 : rateLimit req kind cache t1 = ({ success := true }, c1) := by
    rw [rateLimit_fresh req kind cache t1 hstart, hkwin, hc1]
  have g2 : lruGet c1 key t2 = some { count := 1, resetTime := t1 + 900000 } := by
    rw [hc1, lruGet_set_same _ _ _ _ _ hmax, httl, if_pos (show t2 ≤ t1 + 900000 by omega)]
  have e2 : rateLimit req kind c1 t2 =
      ({ success := true, headers := some (rateLimitAllowHeaders (RATE_LIMITS kind)
          { count := 2, resetTime := t1 + 900000 }) }, c2) := by
    rw [rateLimit_incr req kind c1 t2 { count := 1, resetTime := t1 + 900000 } g2
        (show ¬ t1 + 900000 < t2 by omega) (show 1 < (RATE_LIMITS kind).max by omega), hc2]
  have g3 : lruGet c2 key t3 = some { count := 2, resetTime := t1 + 900000 } := by
    rw [hc2, lruGet_set_same _ _ _ _ _ hmax1, httl1, if_pos (show t3 ≤ t2 + 900000 by omega)]
  have e3 : rateLimit req kind c2 t3 =
      ({ success := true, headers := some (rateLimitAllowHeaders (RATE_LIMITS kind)
          { count := 3, resetTime := t1 + 900000 }) }, c3) := by
    rw [rateLimit_incr req kind c2 t3 { count := 2, resetTime := t1 + 900000 } g3
        (show ¬ t1 + 900000 < t3 by omega) (show 2 < (RATE_LIMITS kind).max by omega), hc3]
  have g4 : lruGet c3 key t4 = some { count := 3, resetTime := t1 + 900000 } := by
    rw [hc3, lruGet_set_same _ _ _ _ _ hmax2, httl2, if_pos (show t4 ≤ t3 + 900000 by omega)]
  have e4 : rateLimit req kind c3 t4 =
      ({ success := true, headers := some (rateLimitAllowHeaders (RATE_LIMITS kind)
          { count := 4, resetTime := t1 + 900000 }) }, c4) := by
    rw [rateLimit_incr req kind c3 t4 { count := 3, resetTime := t1 + 900000 } g4
        (show ¬ t1 + 900000 < t4 by omega) (show 3 < (RATE_LIMITS kind).max by omega), hc4]
  have g5 : lruGet c4 key t5 = some { count := 4, resetTime := t1 + 900000 } := by
    rw [hc4, lruGet_set_same _ _ _ _ _ hmax3, httl3, if_pos (show t5 ≤ t4 + 900000 by omega)]
  have e5 : rateLimit req kind c4 t5 =
      ({ success := true, headers := some (rateLimitAllowHeaders (RATE_LIMITS kind)
          { count := 5, resetTime := t1 + 900000 }) }, c5) := by
    rw [rateLimit_incr req kind c4 t5 { count := 4, resetTime := t1 + 900000 } g5
        (show ¬ t1 + 900000 < t5 by omega) (show 4 < (RATE_LIMITS kind).max by omega), hc5]
  have g6 : lruGet c5 key t6 = some { count := 5, resetTime := t1 + 900000 } := by
    rw [hc5, lruGet_set_same _ _ _ _ _ hmax4, httl4, if_pos (show t6 ≤ t5 + 900000 by omega)]
  have e6 : rateLimit req kind c5 t6 =
      ({ success := false, message := some "Too many requests",
         headers := some (rateLimitDenyHeaders (RATE_LIMITS kind)
           { count := 5, resetTime := t1 + 900000 } t6) }, c5) := by
    rw [rateLimit_deny req kind c5 t6 { count := 5, resetTime := t1 + 900000 } g6
        (show ¬ t1 + 900000 < t6 by omega) (show (RATE_LIMITS kind).max ≤ 5 by omega)]
  have e7 : rateLimit req kind c5 t7 =
      ({ success := true }, lruSet c5 key { count := 1, resetTime := t7 + 900000 } t7) := by
    have hroll : lruGet c5 key t7 = none ∨
        ∃ w, lruGet c5 key t7 = some w ∧ w.resetTime < t7 := by
      by_cases h : t7 ≤ t5 + 900000
      · right
        refine ⟨{ count := 5, resetTime := t1 + 900000 }, ?_, show t1 + 900000 < t7 by omega⟩
        rw [hc5, lruGet_set_same _ _ _ _ _ hmax4, httl4, if_pos h]
      · left
        rw [hc5, lruGet_set_same _ _ _ _ _ hmax4, httl4, if_neg h]
    rw [rateLimit_fresh req kind c5 t7 hroll, hkwin]
  have g8 : lruGet (lruSet c5 key { count := 1, resetTime := t7 + 900000 } t7) key t7 =
      some { count := 1, resetTime := t7 + 900000 } := by
    rw [lruGet_set_same _ _ _ _ _ hmax5, httl5, if_pos (show t7 ≤ t7 + 900000 by omega)]
  refine ⟨?_, ?_⟩ <;> simp only [rateLimitRun, e1, e2, e3, e4, e5, e6, e7, g8]

/-- Claim C5 witness: the `auth` class on a concrete client at times
0..5 and then 1000000. -/
theorem rate_limit_five_allow_then_deny_then_reset_witness :
    (RATE_LIMITS .auth).max = 5 ∧
    (RATE_LIMITS .auth).windowMs = 900000 ∧
    0 < emptyRateLimitCache.maxSize ∧
    emptyRateLimitCache.ttl = 900000 ∧
    lruGet emptyRateLimitCache
      (rlKey .auth { headers := [("x-real-ip", "9.9.9.9")], path := "/x" }) 0 = none ∧
    (rateLimitRun { headers := [("x-real-ip", "9.9.9.9")], path := "/x" } .auth
        emptyRateLimitCache [0, 1, 2, 3, 4, 5, 1000000]).1 =
      [true, true, true, true, true, false, true] :=
  ⟨rfl, rfl, by decide, rfl, by decide,
   (rate_limit_five_allow_then_deny_then_reset
      { headers := [("x-real-ip", "9.9.9.9")], path := "/x" } .auth emptyRateLimitCache
      0 1 2 3 4 5 1000000 rfl rfl (by decide) rfl (Or.inl (by decide))
      (by omega) (by omega) (by omega) (by omega) (by omega) (by omega) (by omega)).1⟩

/-- Claim C3: a refresh request that passes origin, rate limit,
verification and user lookup succeeds and revokes the submitted refresh
token; re-submitting that same token to the endpoint then fails 401 with
"Refresh token has been revoked. Please login again.", while the newly
issued refresh token (fresh correlation id, within its expiry) verifies
successfully. -/
theorem refresh_rotation
    (env : Env) (users : String → Option String) (req req2 : Request)
    (st : JwtState) (rl rl2 : LRU String RateWindow)
    (oldTok newRefresh : Token) (pay : RefreshTokenPayload) (email sA rs tid tid2 : String)
    (now now2 now3 : Nat)
    (hsA : env.jwtSecret = some sA)
    (hrs : env.jwtRefreshSecret = some rs)
    (hor1 : validateOrigin env req = true)
    (hrl1 : (rateLimit req .auth rl now).1.success = true)
    (hver : verifyRefreshToken env st oldTok now = .ok pay)
    (husr : users pay.userId = some email)
    (hnr : newRefresh = .refreshSigned { userId := pay.userId, tokenId := tid } now
        (now + env.jwtRefreshExpiresInMs.getD REFRESH_EXPIRES_DEFAULT) rs)
    (hor2 : validateOrigin env req2 = true)
    (hrl2 : (rateLimit req2 .auth rl2 now2).1.success = true)
    (hmaxR : 0 < st.blacklistedRefreshTokens.maxSize)
    (httl2 : now2 ≤ now + st.blacklistedRefreshTokens.ttl)
    (hneq : ¬ oldTok = newRefresh)
    (hfresh : ∀ e ∈ st.blacklistedRefreshTokens.entries, ¬ e.1 = newRefresh)
    (hexp3 : now3 < now + env.jwtRefreshExpiresInMs.getD REFRESH_EXPIRES_DEFAULT) :
    refreshHandler env users req (some oldTok) st rl tid now =
      (.issued (.accessSigned { userId := pay.userId, email := email } now
          (now + env.jwtExpiresInMs.getD ACCESS_EXPIRES_DEFAULT) sA) newRefresh,
       blacklistRefreshToken st oldTok now,
       (rateLimit req .auth rl now).2) ∧
    (refreshHandler env users req2 (some oldTok) (blacklistRefreshToken st oldTok now)
        rl2 tid2 now2).1 =
      .failure 401 "Refresh token has been revoked. Please login again." ∧
    verifyRefreshToken env (blacklistRefreshToken st oldTok now) newRefresh now3 =
      .ok { userId := pay.userId, tokenId := tid } := by
  have hsec1 : securityMiddleware env req = { status := 200 } := by
    simp [securityMiddleware, hor1]
  have hsec2 : securityMiddleware env req2 = { status := 200 } := by
    simp [securityMiddleware, hor2]
  refine ⟨?_, ?_, ?_⟩
  · simp [refreshHandler, hsec1, hrl1, hver, husr, generateTokenPair,
          generateAccessToken, generateRefreshToken, hsA, hrs, hnr]
  · have hbl2 : isRefreshTokenBlacklisted (blacklistRefreshToken st oldTok now) oldTok now2
        = true := by
      simp [isRefreshTokenBlacklisted, blacklistRefreshToken,
            lruGet_set_same _ _ _ _ _ hmaxR, httl2]
    have hver2 : verifyRefreshToken env (blacklistRefreshToken st oldTok now) oldTok now2 =
        .error .RefreshTokenBlacklistedError := by
      simp [verifyRefreshToken, hrs, hbl2]
    simp [refreshHandler, hsec2, hrl2, hver2]
  · subst hnr
    have hbl3 : isRefreshTokenBlacklisted (blacklistRefreshToken st oldTok now)
        (.refreshSigned { userId := pay.userId, tokenId := tid } now
          (now + env.jwtRefreshExpiresInMs.getD REFRESH_EXPIRES_DEFAULT) rs) now3
        = false := by
      simp [isRefreshTokenBlacklisted, blacklistRefreshToken,
            lruGet_set_other_absent _ _ _ _ _ _ hneq hfresh]
    simp [verifyRefreshToken, hrs, hbl3, jwtVerifySignedRefresh,
          show ¬ (now + env.jwtRefreshExpiresInMs.getD REFRESH_EXPIRES_DEFAULT ≤ now3) from
            by omega]

/-- Claim C3 witness: a concrete rotation at times 100, 200 and 300. -/
theorem refresh_rotation_witness :
    verifyRefreshToken { jwtSecret := some "s", jwtRefreshSecret := some "rs" } emptyJwtState
        (.refreshSigned { userId := "u1", tokenId := "t0" } 0 604800000 "rs") 100 =
      .ok { userId := "u1", tokenId := "t0" } ∧
    refreshHandler { jwtSecret := some "s", jwtRefreshSecret := some "rs" }
        (fun u => if u = "u1" then some "e@x" else none)
        { headers := [("x-real-ip", "9.9.9.9")], path := "/api/auth/refresh" }
        (some (.refreshSigned { userId := "u1", tokenId := "t0" } 0 604800000 "rs"))
        emptyJwtState emptyRateLimitCache "tid1" 100 =
      (.issued (.accessSigned { userId := "u1", email := "e@x" } 100 900100 "s")
         (.refreshSigned { userId := "u1", tokenId := "tid1" } 100 604800100 "rs"),
       blacklistRefreshToken emptyJwtState
         (.refreshSigned { userId := "u1", tokenId := "t0" } 0 604800000 "rs") 100,
       (rateLimit { headers := [("x-real-ip", "9.9.9.9")], path := "/api/auth/refresh" }
          .auth emptyRateLimitCache 100).2) ∧
    (refreshHandler { jwtSecret := some "s", jwtRefreshSecret := some "rs" }
        (fun u => if u = "u1" then some "e@x" else none)
        { headers := [("x-real-ip", "9.9.9.9")], path := "/api/auth/refresh" }
        (some (.refreshSigned { userId := "u1", tokenId := "t0" } 0 604800000 "rs"))
        (blacklistRefreshToken emptyJwtState
          (.refreshSigned { userId := "u1", tokenId := "t0" } 0 604800000 "rs") 100)
        emptyRateLimitCache "tid2" 200).1 =
      .failure 401 "Refresh token has been revoked. Please login again." ∧
    verifyRefreshToken { jwtSecret := some "s", jwtRefreshSecret := some "rs" }
        (blacklistRefreshToken emptyJwtState
          (.refreshSigned { userId := "u1", tokenId := "t0" } 0 604800000 "rs") 100)
        (.refreshSigned { userId := "u1", tokenId := "tid1" } 100 604800100 "rs") 300 =
      .ok { userId := "u1", tokenId := "tid1" } := by
  have h := refresh_rotation { jwtSecret := some "s", jwtRefreshSecret := some "rs" }
    (fun u => if u = "u1" then some "e@x" else none)
    { headers := [("x-real-ip", "9.9.9.9")], path := "/api/auth/refresh" }
    { headers := [("x-real-ip", "9.9.9.9")], path := "/api/auth/refresh" }
    emptyJwtState emptyRateLimitCache emptyRateLimitCache
    (.refreshSigned { userId := "u1", tokenId := "t0" } 0 604800000 "rs")
    (.refreshSigned { userId := "u1", tokenId := "tid1" } 100 604800100 "rs")
    { userId := "u1", tokenId := "t0" } "e@x" "s" "rs" "tid1" "tid2" 100 200 300
    rfl rfl (by decide) (by decide) (by decide) (by decide) (by decide)
    (by decide) (by decide) (by decide) (by decide) (by decide)
    (by intro e he; simp [emptyJwtState] at he) (by decide)
  exact ⟨by decide, h.1, h.2.1, h.2.2⟩

/-- Claim C10: the refresh endpoint leaves the access blacklist
untouched in every case; on every failing attempt (missing header,
verification failure of any kind, or user lookup miss) the whole
revocation state is unchanged; the old refresh token is inserted into
the refresh revocation set exactly on the path where verification and
the user lookup both succeeded, before the new pair is issued. -/
theorem refresh_revocation_atomicity
    (env : Env) (users : String → Option String) (req : Request)
    (xrt : Option Token) (st : JwtState) (rl : LRU String RateWindow)
    (tid : String) (now : Nat) :
    (refreshHandler env users req xrt st rl tid now).2.1.blacklistedTokens =
      st.blacklistedTokens ∧
    (xrt = none → (refreshHandler env users req xrt st rl tid now).2.1 = st) ∧
    (∀ tok e, xrt = some tok → verifyRefreshToken env st tok now = .error e →
      (refreshHandler env users req xrt st rl tid now).2.1 = st) ∧
    (∀ tok pay, xrt = some tok → verifyRefreshToken env st tok now = .ok pay →
      users pay.userId = none →
      (refreshHandler env users req xrt st rl tid now).2.1 = st) ∧
    (∀ tok pay email, xrt = some tok → verifyRefreshToken env st tok now = .ok pay →
      users pay.userId = some email →
      securityMiddleware env req = { status := 200 } →
      (rateLimit req .auth rl now).1.success = true →
      (refreshHandler env users req xrt st rl tid now).2.1 =
        blacklistRefreshToken st tok now) := by
  refine ⟨?_, ?_, ?_, ?_, ?_⟩
  · simp only [refreshHandler]
    repeat' split
    all_goals simp [blacklistRefreshToken]
  · intro h
    subst h
    simp only [refreshHandler]
    repeat' split
    all_goals rfl
  · intro tok e hx hv
    subst hx
    simp only [refreshHandler]
    repeat' split
    all_goals simp_all
  · intro tok pay hx hv hu
    subst hx
    simp only [refreshHandler]
    repeat' split
    all_goals simp_all
  · intro tok pay email hx hv hu hsec hrl
    subst hx
    simp only [refreshHandler]
    repeat' split
    all_goals simp_all

/-- Claim C10 witness: the success path at a concrete request inserts
the old refresh token into the refresh revocation set. -/
theorem refresh_revocation_atomicity_witness :
    verifyRefreshToken { jwtSecret := some "k", jwtRefreshSecret := some "kr" } emptyJwtState
        (.refreshSigned { userId := "u7", tokenId := "t7" } 0 604800000 "kr") 50 =
      .ok { userId := "u7", tokenId := "t7" } ∧
    (refreshHandler { jwtSecret := some "k", jwtRefreshSecret := some "kr" }
        (fun u => if u = "u7" then some "m@x" else none)
        { headers := [("x-real-ip", "8.8.8.8")], path := "/api/auth/refresh" }
        (some (.refreshSigned { userId := "u7", tokenId := "t7" } 0 604800000 "kr"))
        emptyJwtState emptyRateLimitCache "t8" 50).2.1 =
      blacklistRefreshToken emptyJwtState
        (.refreshSigned { userId := "u7", tokenId := "t7" } 0 604800000 "kr") 50 :=
  ⟨by decide,
   (refresh_revocation_atomicity { jwtSecret := some "k", jwtRefreshSecret := some "kr" }
      (fun u => if u = "u7" then some "m@x" else none)
      { headers := [("x-real-ip", "8.8.8.8")], path := "/api/auth/refresh" }
      (some (.refreshSigned { userId := "u7", tokenId := "t7" } 0 604800000 "kr"))
      emptyJwtState emptyRateLimitCache "t8" 50).2.2.2.2
     (.refreshSigned { userId := "u7", tokenId := "t7" } 0 604800000 "kr")
     { userId := "u7", tokenId := "t7" } "m@x" rfl (by decide) (by decide)
     (by decide) (by decide)⟩
